import Mathlib

/-!
Verification of the Sandboxed Job Execution Service and its Client
(backend `src/backend/main.py`, `src/backend/container_config.py`, and the
client `src/agents/agents/docker_runtime_client.py`) against its
natural-language specification.

The Python source is shallowly embedded: pure fragments become Lean
functions, filesystem and container effects become explicit state passing,
and the behaviour of the external environment (the Docker engine, the HTTP
transport) is an explicit parameter of the embedded functions, so that each
control-flow branch of the source corresponds to one constructor of an
event type.
-/

/-! ## Paths and the workspace staging step

`run_job` (main.py lines 246-262) writes every submitted file at
`os.path.join(temp_dir, file.filename)` after `os.makedirs` on the parent,
with no check on the filename.  Paths are modelled as lists of components;
`normalizePath` is the filesystem's lexical resolution of `.`, `..` and
empty components when the file is created. -/

/-- A filesystem path, as the list of its components (absolute, rooted). -/
abbrev FsPath := List String

/-- Lexical resolution of `.`, `..` and empty components, as the kernel
resolves them when the written path is opened (no symlinks in the model). -/
def normalizePath (comps : List String) : FsPath :=
  comps.foldl
    (fun acc c =>
      if c = "." ∨ c = "" then acc
      else if c = ".." then acc.dropLast
      else acc ++ [c]) []

/-- Split a character list at every `/` (the semantics of Python's
`"…".split("/")`, structurally recursive so that it evaluates). -/
def splitSlash : List Char → List (List Char)
  | [] => [[]]
  | c :: cs =>
      if c = '/' then [] :: splitSlash cs
      else
        match splitSlash cs with
        | [] => [[c]]
        | h :: t => (c :: h) :: t

/-- The `/`-separated components of a filename string. -/
def pathComps (s : String) : List String :=
  (splitSlash s.data).map (fun l => String.mk l)

/-- Whether a filename is absolute (starts with `/`). -/
def isAbsoluteFilename (s : String) : Bool :=
  match s.data with
  | [] => false
  | c :: _ => c = '/'

/-- `os.path.join(root, filename)` followed by resolution: an absolute
`filename` replaces `root` (Python `os.path.join` semantics), a relative one
is appended to it. -/
def stagedFilePath (root : FsPath) (filename : String) : FsPath :=
  if isAbsoluteFilename filename then normalizePath (pathComps filename)
  else normalizePath (root ++ pathComps filename)

/-- `true` when `p` lies at or below the directory `root`. -/
def isWithin : FsPath → FsPath → Bool
  | [], _ => true
  | _ :: _, [] => false
  | r :: rs, p :: ps => r == p && isWithin rs ps

/-- A file to be written to the runtime environment (main.py `FilePayload`). -/
structure FilePayload where
  filename : String
  content : String
deriving DecidableEq, Repr

/-- The job request (main.py `JobPayload`): files plus a command. -/
structure JobPayload where
  files : List FilePayload
  command : String
deriving DecidableEq, Repr

/-- Pydantic validation of the `/run` body: both fields are declared with
`Field(...)`, i.e. required — presence is the only constraint, the command
string is not checked for emptiness (main.py lines 176-180). -/
def jobPayloadAccepted (files : Option (List FilePayload))
    (command : Option String) : Bool :=
  files.isSome && command.isSome

/-- The paths at which the staging loop (main.py lines 252-262) writes the
submitted files.  The loop is total: there is no error channel, no filename
is rejected. -/
def stagedPaths (root : FsPath) (files : List FilePayload) : List FsPath :=
  files.map (fun f => stagedFilePath root f.filename)

/-! ## Resource policy (`container_config.py`) -/

/-- `ContainerConfig` with its declared defaults (container_config.py). -/
structure ContainerConfig where
  cpu_quota : Int := 50000
  cpu_period : Int := 100000
  cpu_shares : Int := 512
  memory_limit : String := "512m"
  memory_swap : String := "512m"
  memory_reservation : String := "256m"
  storage_limit_mb : Int := 100
  execution_timeout : Int := 300
  enable_network : Bool := true
  pids_limit : Int := 100
  read_only_root : Bool := true
  tmpfs_size : String := "100m"
  drop_all_capabilities : Bool := true
  no_new_privileges : Bool := true
  max_jobs_per_minute : Int := 10
  log_level : String := "INFO"
  log_resource_usage : Bool := true
deriving DecidableEq, Repr

/-- The `ContainerConfig()` instance built in `run_job` (main.py line 244). -/
def defaultContainerConfig : ContainerConfig := {}

/-! ## Container launch arguments (`run_job`, main.py lines 272-303)

Each keyword argument of `client.containers.run` becomes a field; a kwarg
that is commented out at the call site (lines 290-296) is `none`. -/

/-- The keyword arguments passed to `client.containers.run`. -/
structure LaunchArgs where
  image : String
  command : String
  volumes : List (String × String × String)
  working_dir : String
  environment : List (String × String)
  cpu_quota : Option Int
  cpu_period : Option Int
  cpu_shares : Option Int
  mem_limit : Option String
  memswap_limit : Option String
  mem_reservation : Option String
  pids_limit : Option Int
  network_disabled : Option Bool
  read_only : Option Bool
  tmpfs : Option (List (String × String))
  cap_drop : Option (List String)
  security_opt : Option (List String)
  remove : Bool
  detach : Bool
deriving DecidableEq, Repr

/-- The wrapped command (main.py line 269):
`f"/bin/sh -c 'pip install pytest flake8 && {job.command}'"`. -/
def full_command (command : String) : String :=
  "/bin/sh -c \x27pip install pytest flake8 && " ++ command ++ "\x27"

/-- The launch invocation built by `run_job` (main.py lines 273-303).  The
network, read-only-root, tmpfs, capability-drop and no-new-privileges
kwargs are commented out at the call site and therefore absent. -/
def containerRunArgs (config : ContainerConfig) (temp_dir : String)
    (python_path : String) (command : String) : LaunchArgs :=
  { image := "python:3.10-slim"
    command := full_command command
    volumes := [(temp_dir, "/app", "rw")]
    working_dir := "/app"
    environment := [("PYTHONPATH", python_path)]
    cpu_quota := some config.cpu_quota
    cpu_period := some config.cpu_period
    cpu_shares := some config.cpu_shares
    mem_limit := some config.memory_limit
    memswap_limit := some config.memory_swap
    mem_reservation := some config.memory_reservation
    pids_limit := some config.pids_limit
    network_disabled := none
    read_only := none
    tmpfs := none
    cap_drop := none
    security_opt := none
    remove := false
    detach := true }

/-- Modelled from the spec: "applies every field of the Resource Policy to
the container launch", naming CPU quota/period/shares, the memory limits,
the pids limit, network disablement, read-only root filesystem, capability
drop and no-new-privileges.  Used only to compare the spec's demand with
`containerRunArgs`. -/
def policyFullyApplied (config : ContainerConfig) (a : LaunchArgs) : Bool :=
  a.cpu_quota == some config.cpu_quota &&
  a.cpu_period == some config.cpu_period &&
  a.cpu_shares == some config.cpu_shares &&
  a.mem_limit == some config.memory_limit &&
  a.memswap_limit == some config.memory_swap &&
  a.mem_reservation == some config.memory_reservation &&
  a.pids_limit == some config.pids_limit &&
  a.network_disabled == some (!config.enable_network) &&
  a.read_only == some config.read_only_root &&
  a.cap_drop == (if config.drop_all_capabilities then some ["ALL"] else none) &&
  a.security_opt == (if config.no_new_privileges then some ["no-new-privileges"] else none)

/-! ## Waiting, logs and the result (`run_job`, main.py lines 305-324) -/

/-- The observable behaviour of a launched container: how long it runs
before exiting, its exit status, and its log stream in chronological order
(a chunk is tagged `true` when it was written to stderr). -/
structure ContainerBehavior where
  runSeconds : Nat
  exitCode : Int
  chunks : List (Bool × String)
deriving DecidableEq, Repr

/-- `container.wait()` at main.py line 305 is called with no timeout
argument: it returns only when the container exits, after the container's
full run time, and yields the exit status. -/
def containerWait (c : ContainerBehavior) : Nat × Int :=
  (c.runSeconds, c.exitCode)

/-- `container.logs(stdout=…, stderr=…)`: the chronological concatenation
of the chunks of the selected streams. -/
def containerLogs (chunks : List (Bool × String)) (so se : Bool) : String :=
  String.join ((chunks.filter (fun ch => if ch.1 then se else so)).map (fun ch => ch.2))

/-- The result of the job execution (main.py `JobResult`). -/
structure JobResult where
  success : Bool
  exit_code : Int
  stdout : String
  stderr : String
deriving DecidableEq, Repr

/-- The `JobResult` built on normal termination (main.py lines 305-324):
`stdout` is `container.logs(stdout=True, stderr=True)` decoded, `stderr` is
the literal empty string, and `success = (exit_code == 0)`. -/
def serverNormalResult (exitCode : Int) (chunks : List (Bool × String)) : JobResult :=
  { success := exitCode == 0
    exit_code := exitCode
    stdout := containerLogs chunks true true
    stderr := "" }

/-! ## The `run_job` handler as a state machine (main.py lines 224-337)

The filesystem and the container engine are an explicit `SysState` tracking
the artifacts this request creates; the Docker engine's behaviour is a
`RunEvent` selecting which exception, if any, the body raises.  The
`finally` block of the source is the separate function `finallyBlock`,
applied on every branch. -/

/-- The request-scoped system state: paths this request has created on
disk, and ids of containers it has created. -/
structure SysState where
  fs : List FsPath
  containers : List Nat
deriving DecidableEq, Repr

/-- `shutil.rmtree(root)`: removes the directory and everything below it. -/
def rmtreeFs (root : FsPath) (fs : List FsPath) : List FsPath :=
  fs.filter (fun p => !(isWithin root p))

/-- `if os.path.exists(temp_dir): shutil.rmtree(temp_dir)` (main.py lines
239-240 and 336-337). -/
def teardownStep (root : FsPath) (s : SysState) : SysState :=
  if s.fs.contains root then { s with fs := rmtreeFs root s.fs } else s

/-- The staging loop: appends every written file path to the filesystem. -/
def writeFiles (root : FsPath) (files : List FilePayload) (s : SysState) : SysState :=
  { s with fs := s.fs ++ stagedPaths root files }

/-- The `finally` block (main.py lines 329-337): force-remove the container
when one was created, then remove the workspace when it exists. -/
def finallyBlock (cont : Option Nat) (root : FsPath) (s : SysState) : SysState :=
  let s1 := match cont with
    | some c => { s with containers := s.containers.filter (fun x => x != c) }
    | none => s
  teardownStep root s1

/-- Which exception, if any, the body of `run_job` encounters. -/
inductive RunEvent where
  /-- `client.containers.run` succeeds; the container behaves as given. -/
  | normal (exitCode : Int) (chunks : List (Bool × String))
  /-- `client.containers.run` raises `ImageNotFound`. -/
  | imageNotFound
  /-- `client.containers.run` raises `APIError`. -/
  | apiError (msg : String)
  /-- an exception is raised while writing the files, before any launch. -/
  | stagingError (msg : String)
  /-- an exception is raised after the container was created (wait/logs). -/
  | postWaitError (msg : String)
deriving DecidableEq, Repr

/-- The HTTP-level response of the `/run` handler. -/
inductive RunResponse where
  | ok (r : JobResult)
  | httpError (code : Nat) (detail : String)
deriving DecidableEq, Repr

/-- What a single `/run` request leaves behind. -/
structure RunOutcome where
  response : RunResponse
  /-- whether `client.containers.run` was invoked. -/
  launchInvoked : Bool
  state : SysState
deriving DecidableEq, Repr

/-- The `/run` handler `run_job` (main.py lines 224-337), after
authentication: Docker client initialisation, workspace creation, staging,
launch, wait, result construction, exception mapping, and the `finally`
block, threaded over a request-scoped state that starts empty. -/
def run_job (job : JobPayload) (temp_dir : FsPath) (cid : Nat)
    (dockerOk : Bool) (ev : RunEvent) : RunOutcome :=
  if !dockerOk then
    { response := .httpError 500 "Docker is not running or not configured correctly."
      launchInvoked := false
      state := ⟨[], []⟩ }
  else
    let s0 : SysState := ⟨[], []⟩
    let s1 := teardownStep temp_dir s0
    let s2 : SysState := { s1 with fs := s1.fs ++ [temp_dir] }
    match ev with
    | .stagingError msg =>
        { response := .httpError 500 msg
          launchInvoked := false
          state := finallyBlock none temp_dir s2 }
    | .imageNotFound =>
        let s3 := writeFiles temp_dir job.files s2
        { response := .httpError 500 "Python 3.10 Docker image not found."
          launchInvoked := true
          state := finallyBlock none temp_dir s3 }
    | .apiError msg =>
        let s3 := writeFiles temp_dir job.files s2
        { response := .httpError 500 ("Docker API Error: " ++ msg)
          launchInvoked := true
          state := finallyBlock none temp_dir s3 }
    | .postWaitError msg =>
        let s3 := writeFiles temp_dir job.files s2
        let s4 : SysState := { s3 with containers := s3.containers ++ [cid] }
        { response := .httpError 500 msg
          launchInvoked := true
          state := finallyBlock (some cid) temp_dir s4 }
    | .normal exitCode chunks =>
        let s3 := writeFiles temp_dir job.files s2
        let s4 : SysState := { s3 with containers := s3.containers ++ [cid] }
        { response := .ok (serverNormalResult exitCode chunks)
          launchInvoked := true
          state := finallyBlock (some cid) temp_dir s4 }

/-! ## Credentials and tokens (main.py lines 24-164) -/

/-- The semantic content of a bcrypt hash: `bcrypt.checkpw(p, hashpw(q, salt))`
holds exactly when the UTF-8 encodings of `p` and `q` agree after
truncation to 72 bytes, so a hash is modelled by the truncated bytes. -/
structure BcryptHash where
  digest : List UInt8
deriving DecidableEq, Repr

/-- The byte truncation performed by `hash_password` and `verify_password`
(main.py lines 41-45 and 58-61): the UTF-8 encoding of the password,
truncated to 72 bytes. -/
def truncate72 (p : String) : List UInt8 :=
  (p.data.flatMap (fun c => String.utf8EncodeChar c)).take 72

/-- `hash_password` (main.py lines 36-50). -/
def hash_password (password : String) : BcryptHash :=
  ⟨truncate72 password⟩

/-- `verify_password` (main.py lines 53-67): `bcrypt.checkpw` on the
truncated bytes. -/
def verify_password (plain_password : String) (hashed : BcryptHash) : Bool :=
  hash_password plain_password == hashed

/-- A record of `fake_users_db` (main.py `UserInDB`). -/
structure UserInDB where
  username : String
  full_name : String
  email : String
  hashed_password : BcryptHash
  disabled : Bool
deriving DecidableEq, Repr

/-- `fake_users_db` (main.py lines 71-79): a single record under the
literal key `"agent_user"`, whose `username` field is the environment
variable `OAUTH_USERNAME` and whose password hash is of `OAUTH_PASSWORD`. -/
def fake_users_db (envUsername envPassword : String) : List (String × UserInDB) :=
  [("agent_user",
    { username := envUsername
      full_name := "AI Agent User"
      email := "agent@example.com"
      hashed_password := hash_password envPassword
      disabled := false })]

/-- `get_user` (main.py lines 108-113): dictionary lookup by username. -/
def get_user (db : List (String × UserInDB)) (username : String) : Option UserInDB :=
  (db.find? (fun e => e.1 == username)).map (fun e => e.2)

/-- `authenticate_user` (main.py lines 116-123). -/
def authenticate_user (db : List (String × UserInDB)) (username password : String) :
    Option UserInDB :=
  match get_user db username with
  | none => none
  | some user =>
      if verify_password password user.hashed_password then some user else none

/-- `SECRET_KEY` (main.py line 27, default value). -/
def SECRET_KEY : String := "codewithrach"

/-- `TOKEN_EXPIRES` in minutes (main.py line 29). -/
def TOKEN_EXPIRES : Nat := 30

/-- A signed JWT: the claims it carries plus the key it was signed with
(the signature is valid for exactly that key).  Times are epoch seconds. -/
structure JwtToken where
  sub : Option String
  exp : Nat
  key : String
deriving DecidableEq, Repr

/-- `create_access_token` (main.py lines 126-135): claims `{sub, exp}` with
`exp = now + expires_delta` (default 15 minutes), signed with `SECRET_KEY`. -/
def create_access_token (sub : String) (now : Nat) (expiresDelta : Option Nat) : JwtToken :=
  { sub := some sub
    exp := now + expiresDelta.getD (15 * 60)
    key := SECRET_KEY }

/-- `jwt.decode(token, key, …)`: succeeds with the claims exactly when the
signature matches `key` and the token is not yet expired (`now < exp`). -/
def jwtDecode (t : JwtToken) (key : String) (now : Nat) : Option (Option String × Nat) :=
  if t.key == key && decide (now < t.exp) then some (t.sub, t.exp) else none

/-- An authentication-dependency outcome: a user, or an `HTTPException`. -/
inductive AuthResult where
  | ok (u : UserInDB)
  | httpError (code : Nat) (detail : String)
deriving DecidableEq, Repr

/-- `get_current_user` (main.py lines 138-157): decode the bearer token,
require a `sub` claim, and resolve it through `get_user`; every failure is
the same 401. -/
def get_current_user (db : List (String × UserInDB)) (token : JwtToken)
    (now : Nat) : AuthResult :=
  match jwtDecode token SECRET_KEY now with
  | none => .httpError 401 "Could not validate credentials"
  | some (subClaim, _) =>
      match subClaim with
      | none => .httpError 401 "Could not validate credentials"
      | some username =>
          match get_user db username with
          | none => .httpError 401 "Could not validate credentials"
          | some u => .ok u

/-- `get_current_active_user` (main.py lines 160-164): a resolved but
disabled user is rejected with 400 "Inactive user". -/
def get_current_active_user (db : List (String × UserInDB)) (token : JwtToken)
    (now : Nat) : AuthResult :=
  match get_current_user db token now with
  | .ok u => if u.disabled then .httpError 400 "Inactive user" else .ok u
  | .httpError c d => .httpError c d

/-- The `/token` endpoint `login` (main.py lines 204-221): authenticate,
then issue a token for `user.username` with a 30-minute expiry. -/
def login (db : List (String × UserInDB)) (username password : String)
    (now : Nat) : Option JwtToken :=
  match authenticate_user db username password with
  | none => none
  | some user => some (create_access_token user.username now (some (TOKEN_EXPIRES * 60)))

/-! ## The job client (`docker_runtime_client.py`, `runtime_node`) -/

/-- What one `POST /run` attempt yields, as the client observes it:
a decoded 2xx JSON body, an `httpx.HTTPStatusError` raised by
`raise_for_status`, or an `httpx.RequestError` from the transport. -/
inductive HttpResp where
  | ok (r : JobResult)
  | statusError (code : Nat) (text : String)
  | transportError (msg : String)
deriving DecidableEq, Repr

/-- The environment's behaviour across the at-most-two `POST /run`
attempts of one `runtime_node` call: the first response, whether the forced
`_authenticate()` in the 401 handler succeeds, and the retry's response. -/
structure ClientEnv where
  firstResponse : HttpResp
  reauthSucceeds : Bool
  retryResponse : HttpResp
deriving DecidableEq, Repr

/-- The value stored into `state["execution_results"]`. -/
inductive ExecResults where
  /-- the early return `{"success": False, "error": "No command provided …"}`. -/
  | noCommand
  /-- a `JobResult`-shaped dictionary. -/
  | result (r : JobResult)
deriving DecidableEq, Repr

/-- What one `runtime_node` call did. -/
structure NodeOutcome where
  res : ExecResults
  /-- number of `POST /run` requests sent. -/
  posts : Nat
  /-- number of forced `_authenticate()` calls from the 401 handler. -/
  reauths : Nat
deriving DecidableEq, Repr

/-- The client-side reclassification on the first (non-retry) success path
(docker_runtime_client.py lines 142-146): a decoded result with
`exit_code == 1` is marked `success = True`, unconditionally. -/
def clientPostProcess (r : JobResult) : JobResult :=
  if r.exit_code == 1 then { r with success := true } else r

/-- Whether the client's 401 handler fires for a status code
(docker_runtime_client.py line 154). -/
def clientRetriesOnStatus (code : Nat) : Bool :=
  code == 401

/-- `DockerRuntimeClient.runtime_node` (docker_runtime_client.py lines
88-194): empty-command early return; first `POST /run`; on a 2xx, decode
and reclassify exit code 1; on a 401, one forced re-authentication and one
retry of the same payload, any failure of which falls back to the terminal
failure built from the FIRST error's text; on any other status error or a
transport error, the terminal failure result. -/
def runtime_node (env : ClientEnv) (command : String) : NodeOutcome :=
  if command == "" then
    { res := .noCommand, posts := 0, reauths := 0 }
  else
    match env.firstResponse with
    | .ok r =>
        { res := .result (clientPostProcess r), posts := 1, reauths := 0 }
    | .transportError msg =>
        { res := .result
            { success := false, exit_code := -1, stdout := ""
              stderr := "Failed to connect to runtime service: " ++ msg }
          posts := 1, reauths := 0 }
    | .statusError code text =>
        if clientRetriesOnStatus code then
          if env.reauthSucceeds then
            match env.retryResponse with
            | .ok r =>
                { res := .result r, posts := 2, reauths := 1 }
            | .statusError _ _ =>
                { res := .result
                    { success := false, exit_code := -1, stdout := "", stderr := text }
                  posts := 2, reauths := 1 }
            | .transportError _ =>
                { res := .result
                    { success := false, exit_code := -1, stdout := "", stderr := text }
                  posts := 2, reauths := 1 }
          else
            { res := .result
                { success := false, exit_code := -1, stdout := "", stderr := text }
              posts := 1, reauths := 1 }
        else
          { res := .result
              { success := false, exit_code := -1, stdout := "", stderr := text }
            posts := 1, reauths := 0 }

/-- Modelled from the spec: a "test-runner invocation" — the spec's test
runner is pytest ("pytest test_payment_validator.py -v"), so the command's
first word is `pytest`.  Used only to state the spec's exit-code-1 policy
exception for comparison with the client's actual reclassification. -/
def isTestRunnerInvocation (command : String) : Bool :=
  String.mk (command.data.takeWhile (fun c => c ≠ ' ')) == "pytest"

/-! ## Helper lemmas -/

/-- A directory lies within itself. -/
theorem isWithin_refl (p : FsPath) : isWithin p p = true := by
  induction p with
  | nil => rfl
  | cons a t ih => simp [isWithin, ih]

/-- Everything left by `rmtreeFs root` lies outside `root`. -/
theorem rmtreeFs_all (root : FsPath) (fs : List FsPath) :
    (rmtreeFs root fs).all (fun p => !(isWithin root p)) = true := by
  apply List.all_eq_true.mpr
  intro p hp
  exact (List.mem_filter.mp hp).2

/-- `rmtreeFs root` removes the root directory itself. -/
theorem root_not_mem_rmtreeFs (root : FsPath) (fs : List FsPath) :
    root ∉ rmtreeFs root fs := by
  intro h
  have h2 := (List.mem_filter.mp h).2
  rw [isWithin_refl] at h2
  simp at h2

/-- `List.contains` agrees with membership on paths. -/
theorem fsContains_iff (l : List FsPath) (a : FsPath) :
    l.contains a = true ↔ a ∈ l := by
  induction l with
  | nil => simp
  | cons b t ih => simp [List.contains_cons, ih]

/-! ## C1 — path traversal in staging -/

/-- C1: the claim states that a filename with `../` components resolving
outside the workspace root makes staging fail with `PathEscape` and that no
file is created outside the root.  The staging loop of `run_job` has no
such check: for the workspace root `/srv/runtime_sandbox_0a1b2c3d` and the
submitted filename `../evil.py`, the file is written at `/srv/evil.py`,
outside the root, and no error is raised (`stagedPaths` is total). -/
theorem C1_path_escape_not_rejected :
    stagedPaths ["srv", "runtime_sandbox_0a1b2c3d"]
        [{ filename := "../evil.py", content := "pwned" }]
      = [["srv", "evil.py"]] ∧
    isWithin ["srv", "runtime_sandbox_0a1b2c3d"] ["srv", "evil.py"] = false := by
  constructor <;> rfl

/-! ## C2 — execution timeout -/

/-- C2: the claim states that a container still running after
`executionTimeoutSeconds` (300) is forcibly terminated with
`success = false`, `exit_code = -1` and a timeout message, the wait never
blocking past the deadline.  `container.wait()` is called with no timeout
argument and `config.execution_timeout` is never read in `run_job`: for a
container that runs 301 seconds and then exits 0, the handler blocks the
full 301 seconds and reports `success = true`, `exit_code = 0`. -/
theorem C2_wait_has_no_timeout :
    (containerWait { runSeconds := 301, exitCode := 0, chunks := [] }).1 = 301 ∧
    defaultContainerConfig.execution_timeout = 300 ∧
    serverNormalResult
        (containerWait { runSeconds := 301, exitCode := 0, chunks := [] }).2 []
      = { success := true, exit_code := 0, stdout := "", stderr := "" } := by
  refine ⟨rfl, rfl, rfl⟩

/-! ## C4 — empty-command validation -/

/-- C4: the claim states that a request with `command = ""` gets a
validation (client-error) response with no container launched and no
workspace staged.  Pydantic only requires the field to be present, so the
payload `{files: [], command: ""}` is accepted, the workspace is created,
the container is launched, and the handler returns a normal 200 result. -/
theorem C4_empty_command_not_rejected :
    jobPayloadAccepted (some []) (some "") = true ∧
    (run_job { files := [], command := "" } ["srv", "runtime_sandbox_0a1b2c3d"] 7
        true (.normal 0 [])).launchInvoked = true ∧
    (run_job { files := [], command := "" } ["srv", "runtime_sandbox_0a1b2c3d"] 7
        true (.normal 0 [])).response
      = .ok { success := true, exit_code := 0, stdout := "", stderr := "" } := by
  refine ⟨rfl, rfl, rfl⟩

/-! ## C5 — resource policy application -/

/-- C5 counterexample: the claim states that every field of the Resource
Policy — including network disablement, read-only root, capability drop and
no-new-privileges — is applied to the launch.  On the default policy the
launch invocation built by `run_job` does not satisfy that: those kwargs
are commented out at the call site. -/
theorem C5_counterexample :
    policyFullyApplied defaultContainerConfig
      (containerRunArgs defaultContainerConfig "/srv/runtime_sandbox_0a1b2c3d"
        "/app" "pytest -v") = false := by
  rfl

/-- C5 (amended): for every policy and every launch, exactly the CPU
quota/period/shares, the three memory limits and the pids limit are applied
verbatim to the container launch; the network-disablement, read-only-root,
tmpfs, capability-drop and no-new-privileges settings are not passed at
all. -/
theorem C5_applied_resource_fields (config : ContainerConfig)
    (temp_dir python_path command : String) :
    (containerRunArgs config temp_dir python_path command).cpu_quota = some config.cpu_quota ∧
    (containerRunArgs config temp_dir python_path command).cpu_period = some config.cpu_period ∧
    (containerRunArgs config temp_dir python_path command).cpu_shares = some config.cpu_shares ∧
    (containerRunArgs config temp_dir python_path command).mem_limit = some config.memory_limit ∧
    (containerRunArgs config temp_dir python_path command).memswap_limit = some config.memory_swap ∧
    (containerRunArgs config temp_dir python_path command).mem_reservation = some config.memory_reservation ∧
    (containerRunArgs config temp_dir python_path command).pids_limit = some config.pids_limit ∧
    (containerRunArgs config temp_dir python_path command).network_disabled = none ∧
    (containerRunArgs config temp_dir python_path command).read_only = none ∧
    (containerRunArgs config temp_dir python_path command).tmpfs = none ∧
    (containerRunArgs config temp_dir python_path command).cap_drop = none ∧
    (containerRunArgs config temp_dir python_path command).security_opt = none := by
  refine ⟨rfl, rfl, rfl, rfl, rfl, rfl, rfl, rfl, rfl, rfl, rfl, rfl⟩

/-! ## C9 — stderr is always empty on normal termination -/

/-- C9: on every normal termination the `JobResult` has `stderr = ""` and
`stdout` equal to the chronological merge of both log streams — the
program's error output is delivered inside `stdout`, never in `stderr`. -/
theorem C9_stderr_empty_stdout_merged (exitCode : Int)
    (chunks : List (Bool × String)) :
    (serverNormalResult exitCode chunks).stderr = "" ∧
    (serverNormalResult exitCode chunks).stdout
      = String.join (chunks.map (fun ch => ch.2)) := by
  refine ⟨rfl, ?_⟩
  unfold serverNormalResult containerLogs
  have hfil : chunks.filter (fun ch => if ch.1 then true else true) = chunks := by
    apply List.filter_eq_self.mpr
    intro a _
    rcases a with ⟨b, s⟩
    cases b <;> rfl
  rw [hfil]

/-! ## C10 — disabled user gets 400, not 401 -/

/-- C10: a well-signed, unexpired token that resolves to a credential with
`disabled = true` is rejected by `get_current_active_user` with an HTTP 400
"Inactive user", not the 401 of invalid tokens, and 400 does not trigger
the client's retry-on-401 handler. -/
theorem C10_disabled_user_gets_400 (db : List (String × UserInDB))
    (token : JwtToken) (now : Nat) (u : UserInDB)
    (h : get_current_user db token now = .ok u) (hd : u.disabled = true) :
    get_current_active_user db token now = .httpError 400 "Inactive user" ∧
    clientRetriesOnStatus 400 = false := by
  constructor
  · unfold get_current_active_user
    rw [h]
    simp [hd]
  · rfl

/-- C10 witness: a concrete credential store with a disabled user and a
valid token for it. -/
theorem C10_disabled_user_gets_400_witness :
    get_current_active_user
        [("bob", { username := "bob", full_name := "Bob", email := "b@example.com",
                   hashed_password := hash_password "pw", disabled := true })]
        { sub := some "bob", exp := 10, key := "codewithrach" } 0
      = .httpError 400 "Inactive user" ∧
    clientRetriesOnStatus 400 = false :=
  C10_disabled_user_gets_400 _ _ 0 _ (by rfl) rfl

/-! ## C3 — success classification of exit codes -/

/-- C3 counterexample: the claim states that an exit code of 1 yields
`success = true` only when the command is a test-runner invocation.  The
client reclassifies exit code 1 unconditionally: for the non-test-runner
command `python crash.py` exiting 1, the delivered result still has
`success = true`. -/
theorem C3_counterexample :
    isTestRunnerInvocation "python crash.py" = false ∧
    (runtime_node
        { firstResponse := .ok (serverNormalResult 1 [(false, "boom")])
          reauthSucceeds := true
          retryResponse := .ok (serverNormalResult 0 []) }
        "python crash.py").res
      = .result { success := true, exit_code := 1, stdout := "boom", stderr := "" } := by
  constructor <;> rfl

/-- C3 (amended): for every job that runs to normal termination and is
delivered through the client's success path, `success = true` exactly when
the exit code is 0 or 1 — the exit-code-1 reclassification is applied by
the client for every command, not only test-runner invocations. -/
theorem C3_success_iff_exit_code_zero_or_one (exitCode : Int)
    (chunks : List (Bool × String)) :
    (clientPostProcess (serverNormalResult exitCode chunks)).success
      = (exitCode == 0 || exitCode == 1) := by
  unfold clientPostProcess serverNormalResult
  by_cases h : exitCode = 1 <;> simp [h]

/-! ## C6 — unconditional cleanup -/

/-- C6: on every exit path of `run_job` — normal success, `ImageNotFound`,
`APIError`, an exception during staging, an exception after the container
was created, or a Docker-client initialisation failure — the final state
holds no path at or below the workspace root and no container, and the
teardown step is idempotent (running it a second time changes nothing). -/
theorem C6_cleanup_on_every_path :
    (∀ (job : JobPayload) (temp_dir : FsPath) (cid : Nat) (dockerOk : Bool)
        (ev : RunEvent),
      (run_job job temp_dir cid dockerOk ev).state.containers = [] ∧
      ((run_job job temp_dir cid dockerOk ev).state.fs.all
        (fun p => !(isWithin temp_dir p))) = true) ∧
    (∀ (root : FsPath) (s : SysState),
      teardownStep root (teardownStep root s) = teardownStep root s) := by
  constructor
  · intro job temp_dir cid dockerOk ev
    have hcontains : ∀ (rest : List FsPath),
        (temp_dir :: rest).contains temp_dir = true := by
      intro rest
      simp [List.contains_cons]
    cases dockerOk
    · simp [run_job]
    · cases ev <;>
        simp [run_job, finallyBlock, writeFiles, teardownStep, List.contains_nil,
              hcontains, rmtreeFs_all, rmtreeFs]
  · intro root s
    unfold teardownStep
    by_cases h : s.fs.contains root = true
    · rw [if_pos h]
      have hnc : ((rmtreeFs root s.fs).contains root) = false := by
        cases hc : (rmtreeFs root s.fs).contains root
        · rfl
        · exact absurd ((fsContains_iff _ _).mp hc) (root_not_mem_rmtreeFs root s.fs)
      simp [hnc]
      intro hmem
      exact absurd hmem (root_not_mem_rmtreeFs root s.fs)
    · rw [if_neg h, if_neg h]

/-! ## C7 — authenticate / verify round trip -/

/-- Closed form of `get_user` over the one-record credential store. -/
theorem get_user_fake_db (envU envP u : String) :
    get_user (fake_users_db envU envP) u =
      if "agent_user" = u then
        some { username := envU, full_name := "AI Agent User",
               email := "agent@example.com",
               hashed_password := hash_password envP, disabled := false }
      else none := by
  unfold get_user fake_users_db
  by_cases h : "agent_user" = u
  · subst h
    simp [List.find?]
  · have hb : (("agent_user" : String) == u) = false := beq_eq_false_iff_ne.mpr h
    simp [List.find?, hb, h]

/-- C7 counterexample: the claim states that for every valid credential,
authentication followed by verification of the issued token succeeds.  The
store record is keyed by the literal `"agent_user"` while the token subject
is the record's `username` field, read from `OAUTH_USERNAME`: with
`OAUTH_USERNAME = "alice"`, the credential `("agent_user", "pw")` is valid
and authentication succeeds, but the issued token carries subject
`"alice"`, which `get_current_user` cannot resolve — verification fails
with 401 instead of succeeding. -/
theorem C7_counterexample :
    authenticate_user (fake_users_db "alice" "pw") "agent_user" "pw"
      = some { username := "alice", full_name := "AI Agent User",
               email := "agent@example.com",
               hashed_password := hash_password "pw", disabled := false } ∧
    login (fake_users_db "alice" "pw") "agent_user" "pw" 0
      = some { sub := some "alice", exp := 1800, key := "codewithrach" } ∧
    get_current_user (fake_users_db "alice" "pw")
        { sub := some "alice", exp := 1800, key := "codewithrach" } 0
      = .httpError 401 "Could not validate credentials" := by
  refine ⟨by decide, by decide, by decide⟩


/-- Closed form of `authenticate_user` over the one-record store. -/
theorem authenticate_user_fake_db (envU envP u p : String) :
    authenticate_user (fake_users_db envU envP) u p =
      if "agent_user" = u ∧ verify_password p (hash_password envP) = true then
        some { username := envU, full_name := "AI Agent User",
               email := "agent@example.com",
               hashed_password := hash_password envP, disabled := false }
      else none := by
  unfold authenticate_user
  rw [get_user_fake_db]
  by_cases h1 : "agent_user" = u
  · by_cases h2 : verify_password p (hash_password envP) = true
    · simp [h1, h2]
    · simp [h1, h2]
  · simp [h1]

/-- C7 (amended): provided the configured `OAUTH_USERNAME` equals the
credential-store key `"agent_user"` (the record's username matches its
lookup key), authentication followed immediately by verification of the
issued token succeeds, resolves to the same user record, and the token's
subject is the username that was authenticated — a round trip on the
subject under the shared signing secret. -/
theorem C7_roundtrip (envPassword username password : String) (now : Nat)
    (tok : JwtToken)
    (h : login (fake_users_db "agent_user" envPassword) username password now
          = some tok) :
    ∃ user,
      authenticate_user (fake_users_db "agent_user" envPassword) username password
        = some user ∧
      get_current_user (fake_users_db "agent_user" envPassword) tok now = .ok user ∧
      tok.sub = some user.username ∧
      user.username = username := by
  unfold login at h
  by_cases hc : "agent_user" = username ∧
      verify_password password (hash_password envPassword) = true
  · rw [authenticate_user_fake_db, if_pos hc] at h
    simp only [] at h
    have htok : create_access_token "agent_user" now (some (TOKEN_EXPIRES * 60)) = tok := by
      exact Option.some.inj h
    refine ⟨{ username := "agent_user", full_name := "AI Agent User",
              email := "agent@example.com",
              hashed_password := hash_password envPassword, disabled := false },
            ?_, ?_, ?_, ?_⟩
    · rw [authenticate_user_fake_db, if_pos hc]
    · rw [← htok]
      unfold get_current_user jwtDecode create_access_token
      have hlt : now < now + (some (TOKEN_EXPIRES * 60)).getD (15 * 60) := by
        rw [Option.getD_some]; unfold TOKEN_EXPIRES; omega
      simp only [SECRET_KEY, beq_self_eq_true, Bool.true_and,
        decide_eq_true_eq, if_pos hlt]
      simp [get_user_fake_db]
    · rw [← htok]; rfl
    · exact hc.1
  · rw [authenticate_user_fake_db, if_neg hc] at h
    exact Option.noConfusion h

/-- C7 witness: the concrete credential `("agent_user", "pw")` under the
consistent configuration `OAUTH_USERNAME = "agent_user"`. -/
theorem C7_roundtrip_witness :
    ∃ user,
      authenticate_user (fake_users_db "agent_user" "pw") "agent_user" "pw"
        = some user ∧
      get_current_user (fake_users_db "agent_user" "pw")
          { sub := some "agent_user", exp := 1800, key := "codewithrach" } 0
        = .ok user ∧
      (JwtToken.mk (some "agent_user") 1800 "codewithrach").sub
        = some user.username ∧
      user.username = "agent_user" :=
  C7_roundtrip "pw" "agent_user" "pw" 0
    { sub := some "agent_user", exp := 1800, key := "codewithrach" } (by decide)

/-! ## C8 — single retry on 401 only -/

/-- Whether a response is the authorization-failure class (HTTP 401). -/
def is401 : HttpResp → Bool
  | .statusError code _ => code == 401
  | _ => false

/-- Whether a response is a decoded 2xx result. -/
def isOkResp : HttpResp → Bool
  | .ok _ => true
  | _ => false

/-- Whether the stored execution result is the terminal failure shape
(`success = false`, `exit_code = -1`). -/
def isTerminalFailure : ExecResults → Bool
  | .result r => !r.success && (r.exit_code == -1)
  | .noCommand => false

/-- C8: on a 401 first response — and only on that response class — the
client performs exactly one forced re-authentication and, when that
re-authentication succeeds, exactly one retry of the same request (never
more than two posts); when the retry also fails (or the re-authentication
itself does), the failure is surfaced as the terminal failure result with
`success = false` and `exit_code = -1`, and is not retried again.  On every
non-401 first response there is no re-authentication and no retry. -/
theorem C8_single_retry_on_401 (env : ClientEnv) (command : String)
    (h : command ≠ "") :
    (runtime_node env command).reauths
      = (if is401 env.firstResponse then 1 else 0) ∧
    (runtime_node env command).posts
      = (if is401 env.firstResponse && env.reauthSucceeds then 2 else 1) ∧
    (if is401 env.firstResponse && !(env.reauthSucceeds && isOkResp env.retryResponse)
     then isTerminalFailure (runtime_node env command).res
     else true) = true := by
  have hcmd : (command == "") = false := beq_eq_false_iff_ne.mpr h
  rcases env with ⟨first, reauthOk, retry⟩
  cases first with
  | ok r =>
      simp [runtime_node, hcmd, is401]
  | transportError msg =>
      simp [runtime_node, hcmd, is401]
  | statusError code text =>
      by_cases hc : code = 401
      · subst hc
        cases reauthOk
        · simp [runtime_node, hcmd, is401, clientRetriesOnStatus, isTerminalFailure]
        · cases retry with
          | ok r =>
              simp [runtime_node, hcmd, is401, clientRetriesOnStatus,
                isOkResp, isTerminalFailure]
          | statusError c2 t2 =>
              simp [runtime_node, hcmd, is401, clientRetriesOnStatus,
                isOkResp, isTerminalFailure]
          | transportError m2 =>
              simp [runtime_node, hcmd, is401, clientRetriesOnStatus,
                isOkResp, isTerminalFailure]
      · have hcb : (code == 401) = false := beq_eq_false_iff_ne.mpr hc
        simp [runtime_node, hcmd, is401, clientRetriesOnStatus, hcb]

/-- C8 witness: a persistently failing credential — the first response is
401, the forced re-authentication succeeds, and the retry fails with 401
again; the client posts twice, re-authenticates once, and surfaces the
terminal failure. -/
theorem C8_single_retry_on_401_witness :
    (runtime_node
        { firstResponse := .statusError 401 "Could not validate credentials"
          reauthSucceeds := true
          retryResponse := .statusError 401 "Could not validate credentials" }
        "pytest -v").reauths
      = (if is401 (.statusError 401 "Could not validate credentials") then 1 else 0) ∧
    (runtime_node
        { firstResponse := .statusError 401 "Could not validate credentials"
          reauthSucceeds := true
          retryResponse := .statusError 401 "Could not validate credentials" }
        "pytest -v").posts
      = (if is401 (.statusError 401 "Could not validate credentials") && true then 2 else 1) ∧
    (if is401 (.statusError 401 "Could not validate credentials")
        && !(true && isOkResp (.statusError 401 "Could not validate credentials"))
     then isTerminalFailure (runtime_node
        { firstResponse := .statusError 401 "Could not validate credentials"
          reauthSucceeds := true
          retryResponse := .statusError 401 "Could not validate credentials" }
        "pytest -v").res
     else true) = true :=
  C8_single_retry_on_401
    { firstResponse := .statusError 401 "Could not validate credentials"
      reauthSucceeds := true
      retryResponse := .statusError 401 "Could not validate credentials" }
    "pytest -v" (by decide)
